import Mathlib

/-! Verification of the HyperLend SDK position-safety flows.

This file gives a shallow embedding of the isolated-pair SDK
(`src/isolated/src/HyperlendSDK.ts`) and of the core module's token approval
(`approveToken` in the core SDK), and proves properties of the pre-flight
validation, oracle guarding, risk arithmetic and transaction sequencing.

Modelling conventions:
- Remote contract state that the SDK reads over RPC is an explicit record
  `ChainState`; each SDK action becomes a pure function from that state and
  its arguments to an `Except` result paired with the ordered list of
  state-changing transactions it submits (`FlowOut`).
- Read-only RPC calls (token metadata, decimals/symbol lookups, gas
  estimation, network queries) submit nothing and never change the outcome of
  the flows modelled here, so they are elided from the embedding.
- Quantities are `Int`: ethers `BigNumber` is an arbitrary-precision signed
  integer whose division truncates toward zero, which is `Int.tdiv`.
- Ethereum address validity checks (`ethers.utils.isAddress`) are modelled by
  a boolean argument carrying the result of the check. -/

/-- The constant ethers.constants.WeiPerEther, i.e. 10^18. -/
def weiPerEther : Int := 10 ^ 18

/-- Result of pair.totalBorrow(): total borrowed amount and total borrow shares. -/
structure TotalBorrow where
  amount : Int
  shares : Int
  deriving DecidableEq, Repr

/-- Result of oracle.getPrices(). -/
structure OraclePrices where
  isBadData : Bool
  priceLow : Int
  priceHigh : Int
  deriving DecidableEq, Repr

/-- The remote chain state read by the SDK flows: pair aggregates, oracle
prices, the user position, the signer token allowances granted to the pair and
the signer collateral token balance. -/
structure ChainState where
  totalAssets : Int
  totalBorrow : TotalBorrow
  maxLTV : Int
  oracle : OraclePrices
  userCollateralBalance : Int
  userBorrowShares : Int
  lowExchangeRate : Int
  allowanceAsset : Int
  allowanceCollateral : Int
  signerCollateralBalance : Int
  deriving DecidableEq, Repr

/-- A state-changing transaction submitted by a flow, in submission order. -/
inductive Tx where
  | approve (amount : Int)
  | deposit (amount : Int)
  | borrowAsset (amount collateralAmount : Int)
  | repayAsset (shares : Int)
  | withdrawShares (shares : Int)
  | addCollateralTx (amount : Int)
  | removeCollateralTx (amount : Int)
  deriving DecidableEq, Repr

/-- The classified local failures raised by the SDK before or instead of
submitting a transaction. -/
inductive SdkError where
  | invalidAddress
  | nonPositiveAmount
  | insufficientAllowance
  | insufficientAssets
  | insufficientBalance
  | oracleBadData
  | noDebt
  | repayExceedsDebt
  | exceedsBorrowLimit
  deriving DecidableEq, Repr

/-- Outcome of a flow: the result together with every submitted transaction. -/
abbrev FlowOut := Except SdkError Unit × List Tx

/-- The maximum borrowable value computed inside borrow:
collateralAmount.mul(priceLow).div(WeiPerEther).mul(maxLTV).div(WeiPerEther). -/
def borrowableValue (collateralAmount priceLow maxLTV : Int) : Int :=
  Int.tdiv (Int.tdiv (collateralAmount * priceLow) weiPerEther * maxLTV) weiPerEther

/-- The tail of borrow after the collateral-approval block: read getPrices,
reject on isBadData, reject when the requested amount exceeds borrowableValue,
otherwise submit borrowAsset.  `txs` carries transactions already submitted. -/
def borrowRiskPhase (st : ChainState) (amount collateralAmount : Int) (txs : List Tx) : FlowOut :=
  if st.oracle.isBadData then (Except.error SdkError.oracleBadData, txs)
  else if borrowableValue collateralAmount st.oracle.priceLow st.maxLTV < amount then
    (Except.error SdkError.exceedsBorrowLimit, txs)
  else (Except.ok (), txs ++ [Tx.borrowAsset amount collateralAmount])

/-- HyperlendSDK.borrow: validates amount > 0, checks totalAssets covers the
request, then (when collateralAmount > 0 and the collateral allowance is
insufficient) either fails or, with autoApprove, submits an approve transaction
for exactly collateralAmount — before the oracle is consulted — and finally
runs the oracle and capacity checks and submits borrowAsset. -/
def borrow (st : ChainState) (amount collateralAmount : Int) (autoApprove : Bool) : FlowOut :=
  if amount ≤ 0 then (Except.error SdkError.nonPositiveAmount, [])
  else if st.totalAssets < amount then (Except.error SdkError.insufficientAssets, [])
  else if 0 < collateralAmount ∧ st.allowanceCollateral < collateralAmount then
    if autoApprove then borrowRiskPhase st amount collateralAmount [Tx.approve collateralAmount]
    else (Except.error SdkError.insufficientAllowance, [])
  else borrowRiskPhase st amount collateralAmount []

/-- HyperlendSDK.supply: the source performs no amount validation; it checks
allowance(user, pair), approves exactly the requested amount when the
allowance is insufficient (failing instead when autoApprove is false), then
submits deposit(amount, user). -/
def supply (st : ChainState) (amount : Int) (autoApprove : Bool) : FlowOut :=
  if st.allowanceAsset < amount then
    if autoApprove then (Except.ok (), [Tx.approve amount, Tx.deposit amount])
    else (Except.error SdkError.insufficientAllowance, [])
  else (Except.ok (), [Tx.deposit amount])

/-- HyperlendSDK.withdraw: validates shares > 0, then submits
withdraw(shares, user, user); the autoApprove parameter is never read. -/
def withdraw (st : ChainState) (shares : Int) (autoApprove : Bool) : FlowOut :=
  if shares ≤ 0 then (Except.error SdkError.nonPositiveAmount, [])
  else (Except.ok (), [Tx.withdrawShares shares])

/-- The borrow-shares-to-amount conversion used by repay:
shares.mul(totalBorrow.amount).div(totalBorrow.shares). -/
def debtAmount (tb : TotalBorrow) (shares : Int) : Int :=
  Int.tdiv (shares * tb.amount) tb.shares

/-- HyperlendSDK.repay: validates the user address and shares > 0, rejects a
user with zero borrow shares ("No debt to repay") and a request exceeding the
borrow shares ("Cannot repay more than the borrower debt"), converts shares to
an amount via totalBorrow, approves exactly that amount when the asset
allowance is insufficient, then submits repayAsset(shares, user). -/
def repay (st : ChainState) (shares : Int) (userAddressValid : Bool) (autoApprove : Bool) :
    FlowOut :=
  if !userAddressValid then (Except.error SdkError.invalidAddress, [])
  else if shares ≤ 0 then (Except.error SdkError.nonPositiveAmount, [])
  else if st.userBorrowShares = 0 then (Except.error SdkError.noDebt, [])
  else if st.userBorrowShares < shares then (Except.error SdkError.repayExceedsDebt, [])
  else
    let amountToRepay := debtAmount st.totalBorrow shares
    if st.allowanceAsset < amountToRepay then
      if autoApprove then (Except.ok (), [Tx.approve amountToRepay, Tx.repayAsset shares])
      else (Except.error SdkError.insufficientAllowance, [])
    else (Except.ok (), [Tx.repayAsset shares])

/-- HyperlendSDK.addCollateral: validates amount > 0 and the user address,
checks the signer collateral balance, approves exactly the requested amount
when the collateral allowance is insufficient, then submits
addCollateral(amount, user). -/
def addCollateral (st : ChainState) (amount : Int) (userAddressValid : Bool) (autoApprove : Bool) :
    FlowOut :=
  if amount ≤ 0 then (Except.error SdkError.nonPositiveAmount, [])
  else if !userAddressValid then (Except.error SdkError.invalidAddress, [])
  else if st.signerCollateralBalance < amount then (Except.error SdkError.insufficientBalance, [])
  else if st.allowanceCollateral < amount then
    if autoApprove then (Except.ok (), [Tx.approve amount, Tx.addCollateralTx amount])
    else (Except.error SdkError.insufficientAllowance, [])
  else (Except.ok (), [Tx.addCollateralTx amount])

/-- HyperlendSDK.removeCollateral: validates amount > 0 and then directly
submits removeCollateral(amount, user); the source performs no collateral
balance check and no solvency check, and never reads autoApprove. -/
def removeCollateral (st : ChainState) (amount : Int) (autoApprove : Bool) : FlowOut :=
  if amount ≤ 0 then (Except.error SdkError.nonPositiveAmount, [])
  else (Except.ok (), [Tx.removeCollateralTx amount])

/-- The fields of the record returned by HyperlendSDK.readUserPosition. -/
structure UserPositionView where
  userCollateralBalance : Int
  userBorrowShares : Int
  liquidationPrice : Int
  deriving DecidableEq, Repr

/-- HyperlendSDK.readUserPosition: liquidationPrice is
userBorrowShares.mul(lowExchangeRate).div(userCollateralBalance) when
userBorrowShares.gt(0) and userCollateralBalance is non-zero, else zero. -/
def readUserPosition (st : ChainState) : UserPositionView :=
  ⟨st.userCollateralBalance, st.userBorrowShares,
    if 0 < st.userBorrowShares ∧ st.userCollateralBalance ≠ 0 then
      Int.tdiv (st.userBorrowShares * st.lowExchangeRate) st.userCollateralBalance
    else 0⟩

/-- The fixed approval amount used by the core module:
utils.parseEther("1000000000"), i.e. 10^9 * 10^18. -/
def coreApprovalAmount : Int := 1000000000 * weiPerEther

/-- HyperlendSDKcore.approveToken: reads allowance(signer, pool); when it is
below the requested amount, submits an approve transaction for the fixed
coreApprovalAmount (not the requested amount); otherwise submits nothing. -/
def coreApproveToken (currentAllowance amount : Int) : FlowOut :=
  if currentAllowance < amount then (Except.ok (), [Tx.approve coreApprovalAmount])
  else (Except.ok (), [])

/-- Replace only the oracle priceHigh field of a state, keeping the rest. -/
def setPriceHigh (st : ChainState) (p : Int) : ChainState :=
  ⟨st.totalAssets, st.totalBorrow, st.maxLTV,
    ⟨st.oracle.isBadData, st.oracle.priceLow, p⟩,
    st.userCollateralBalance, st.userBorrowShares, st.lowExchangeRate,
    st.allowanceAsset, st.allowanceCollateral, st.signerCollateralBalance⟩

/-- Borrow capacity as the specification words it (spec section 4.4):
collateralAmount * priceLow * maxLTV / 1e18 / 100000.  Stated only to compare
against the borrowableValue that the source actually computes. -/
def spec_borrowCapacity (collateralAmount priceLow maxLTV : Int) : Int :=
  Int.tdiv (Int.tdiv (collateralAmount * priceLow * maxLTV) weiPerEther) 100000

/-- Solvency as the specification words it (spec section 4.4): true iff the
debt value does not exceed the collateral value times maxLTV.  Stated only to
express post-removal insolvency in counterexamples. -/
def spec_isSolvent (debtValue collateralValue maxLTV : Int) : Bool :=
  decide (debtValue ≤ collateralValue * maxLTV)

/-- Concrete state for the capacity-formula counterexample: 1e18 collateral
units, low price 1e18, maxLTV 80000, ample liquidity and allowance. -/
def stCapacity : ChainState :=
  ⟨10 ^ 18, ⟨0, 0⟩, 80000, ⟨false, 10 ^ 18, 10 ^ 18⟩, 0, 0, 0, 0, 10 ^ 18, 0⟩

/-- Concrete state with non-zero debt (50 borrow shares against a 50/50 total
borrow vault) fully backed by 100 units of collateral. -/
def stDebt : ChainState :=
  ⟨1000, ⟨50, 50⟩, 80000, ⟨false, 10 ^ 18, 10 ^ 18⟩, 100, 50, 10 ^ 18, 0, 0, 0⟩

/-- Concrete state whose oracle reports bad data, with a collateral allowance
too small for the requested collateral. -/
def stBadOracle : ChainState :=
  ⟨1000, ⟨0, 0⟩, 80000, ⟨true, 10 ^ 18, 10 ^ 18⟩, 0, 0, 0, 0, 0, 0⟩

/-- Concrete state whose oracle reports priceHigh = 0 with good data, with
liquidity and allowance ample for the requested borrow. -/
def stZeroHigh : ChainState :=
  ⟨10 ^ 18, ⟨0, 0⟩, 10 ^ 18, ⟨false, 10 ^ 18, 0⟩, 0, 0, 0, 0, 2 * 10 ^ 18, 0⟩

/-- Concrete state with zero allowances, zero balances and zero debt. -/
def stEmpty : ChainState :=
  ⟨1000, ⟨0, 0⟩, 80000, ⟨false, 10 ^ 18, 10 ^ 18⟩, 0, 0, 0, 0, 0, 0⟩

/-- Helper: when the requested amount exceeds the computed capacity, the risk
phase errors and submits nothing beyond what was already submitted. -/
lemma borrowRiskPhase_over (st : ChainState) (amount c : Int) (txs : List Tx)
    (h : borrowableValue c st.oracle.priceLow st.maxLTV < amount) :
    (∃ e, (borrowRiskPhase st amount c txs).1 = Except.error e) ∧
    (borrowRiskPhase st amount c txs).2 = txs := by
  unfold borrowRiskPhase
  split_ifs with h1
  · exact ⟨⟨_, rfl⟩, rfl⟩
  · exact ⟨⟨_, rfl⟩, rfl⟩

/-- Helper: an over-capacity borrow always fails, and the only transaction it
can have submitted is the collateral approval. -/
lemma borrow_over_capacity (st : ChainState) (amount c : Int) (auto : Bool)
    (h : borrowableValue c st.oracle.priceLow st.maxLTV < amount) :
    (∃ e, (borrow st amount c auto).1 = Except.error e) ∧
    ((borrow st amount c auto).2 = [] ∨ (borrow st amount c auto).2 = [Tx.approve c]) := by
  unfold borrow
  split_ifs with h1 h2 h3 h4
  · exact ⟨⟨_, rfl⟩, Or.inl rfl⟩
  · exact ⟨⟨_, rfl⟩, Or.inl rfl⟩
  · have hr := borrowRiskPhase_over st amount c [Tx.approve c] h
    exact ⟨hr.1, Or.inr hr.2⟩
  · exact ⟨⟨_, rfl⟩, Or.inl rfl⟩
  · have hr := borrowRiskPhase_over st amount c [] h
    exact ⟨hr.1, Or.inl hr.2⟩

/-- C1 (amended): the maximum borrowable amount used by the borrow pre-flight
check equals collateralAmount * priceLow / 1e18 * maxLTV / 1e18 (dividing by
1e18 after each multiplication, not by 1e18 and 100000), using the low oracle
price; a requested amount strictly greater than this capacity fails with an
error and the borrowAsset transaction is never submitted (though a collateral
approval transaction may already have been submitted). -/
theorem borrow_capacity_preflight (st : ChainState) (amount collateralAmount : Int)
    (autoApprove : Bool)
    (h : borrowableValue collateralAmount st.oracle.priceLow st.maxLTV < amount) :
    borrowableValue collateralAmount st.oracle.priceLow st.maxLTV =
      Int.tdiv (Int.tdiv (collateralAmount * st.oracle.priceLow) weiPerEther * st.maxLTV)
        weiPerEther ∧
    (∃ e, (borrow st amount collateralAmount autoApprove).1 = Except.error e) ∧
    ∀ a ca, Tx.borrowAsset a ca ∉ (borrow st amount collateralAmount autoApprove).2 := by
  obtain ⟨he, htr⟩ := borrow_over_capacity st amount collateralAmount autoApprove h
  refine ⟨rfl, he, ?_⟩
  intro a ca hmem
  rcases htr with h2 | h2 <;> rw [h2] at hmem <;> simp at hmem

/-- C1 witness: at the concrete state stCapacity a request of 10^17 exceeds
the computed capacity of 80000, the flow errors, and no borrowAsset
transaction is submitted. -/
theorem borrow_capacity_preflight_witness :
    borrowableValue (10 ^ 18) stCapacity.oracle.priceLow stCapacity.maxLTV < 10 ^ 17 ∧
    (borrowableValue (10 ^ 18) stCapacity.oracle.priceLow stCapacity.maxLTV =
      Int.tdiv (Int.tdiv ((10 ^ 18) * stCapacity.oracle.priceLow) weiPerEther * stCapacity.maxLTV)
        weiPerEther ∧
    (∃ e, (borrow stCapacity (10 ^ 17) (10 ^ 18) true).1 = Except.error e) ∧
    ∀ a ca, Tx.borrowAsset a ca ∉ (borrow stCapacity (10 ^ 17) (10 ^ 18) true).2) :=
  ⟨by decide, borrow_capacity_preflight stCapacity (10 ^ 17) (10 ^ 18) true (by decide)⟩

/-- C1 counterexample: at collateralAmount = 10^18, priceLow = 10^18,
maxLTV = 80000 the capacity the spec formula gives is 8 * 10^17 while the one
the code computes is 80000; a borrow of 10^17, well within the spec capacity,
is rejected by the pre-flight check. -/
theorem borrow_capacity_formula_cex :
    spec_borrowCapacity (10 ^ 18) (10 ^ 18) 80000 = 8 * 10 ^ 17 ∧
    borrowableValue (10 ^ 18) (10 ^ 18) 80000 = 80000 ∧
    spec_borrowCapacity (10 ^ 18) (10 ^ 18) 80000 ≠ borrowableValue (10 ^ 18) (10 ^ 18) 80000 ∧
    (10 : Int) ^ 17 ≤ spec_borrowCapacity (10 ^ 18) (10 ^ 18) 80000 ∧
    (borrow stCapacity (10 ^ 17) (10 ^ 18) true).1 = Except.error SdkError.exceedsBorrowLimit :=
  ⟨by decide, by decide, by decide, by decide, rfl⟩

/-- C2 (amended): removeCollateral validates only that the amount is strictly
positive; for any positive amount it returns success locally and submits the
removeCollateral transaction unconditionally, performing no local collateral
balance check and no post-removal solvency check. -/
theorem removeCollateral_no_local_risk_checks (st : ChainState) (amount : Int)
    (autoApprove : Bool) (h : 0 < amount) :
    (removeCollateral st amount autoApprove).1 = Except.ok () ∧
    (removeCollateral st amount autoApprove).2 = [Tx.removeCollateralTx amount] := by
  unfold removeCollateral
  rw [if_neg (by omega)]
  exact ⟨rfl, rfl⟩

/-- C2 witness: removing 100 collateral units from stDebt is submitted. -/
theorem removeCollateral_no_local_risk_checks_witness :
    (0 : Int) < 100 ∧
    ((removeCollateral stDebt 100 true).1 = Except.ok () ∧
      (removeCollateral stDebt 100 true).2 = [Tx.removeCollateralTx 100]) :=
  ⟨by decide, removeCollateral_no_local_risk_checks stDebt 100 true (by decide)⟩

/-- C2 counterexample: in stDebt the user has non-zero debt and removing the
full 100-unit collateral balance leaves a position that fails the spec
solvency predicate, yet the call succeeds locally and the transaction is
submitted. -/
theorem removeCollateral_insolvent_cex :
    stDebt.userBorrowShares ≠ 0 ∧
    spec_isSolvent (debtAmount stDebt.totalBorrow stDebt.userBorrowShares)
      ((stDebt.userCollateralBalance - 100) * stDebt.lowExchangeRate) stDebt.maxLTV = false ∧
    (removeCollateral stDebt 100 true).1 = Except.ok () ∧
    (removeCollateral stDebt 100 true).2 = [Tx.removeCollateralTx 100] :=
  ⟨by decide, by decide, rfl, rfl⟩

/-- Helper: with bad oracle data the borrow flow always fails and its trace is
either empty or the single collateral approval. -/
lemma borrow_badData_cases (st : ChainState) (amount c : Int) (auto : Bool)
    (h : st.oracle.isBadData = true) :
    (∃ e, (borrow st amount c auto).1 = Except.error e) ∧
    ((borrow st amount c auto).2 = [] ∨ (borrow st amount c auto).2 = [Tx.approve c]) := by
  unfold borrow borrowRiskPhase
  split_ifs with h1 h2 h3 h4 h5 h6 <;>
    first
      | exact ⟨⟨_, rfl⟩, Or.inl rfl⟩
      | exact ⟨⟨_, rfl⟩, Or.inr rfl⟩
      | simp_all

/-- C3 (amended): whenever the oracle reports isBadData, borrow fails with an
error and the borrowAsset transaction is never submitted; however, the
collateral approval transaction may already have been submitted before the
oracle check, so the only transactions in the trace are approvals. -/
theorem borrow_badData_blocks_borrow (st : ChainState) (amount collateralAmount : Int)
    (autoApprove : Bool) (h : st.oracle.isBadData = true) :
    (∃ e, (borrow st amount collateralAmount autoApprove).1 = Except.error e) ∧
    (∀ a ca, Tx.borrowAsset a ca ∉ (borrow st amount collateralAmount autoApprove).2) ∧
    ∀ t, t ∈ (borrow st amount collateralAmount autoApprove).2 →
      t = Tx.approve collateralAmount := by
  obtain ⟨he, htr⟩ := borrow_badData_cases st amount collateralAmount autoApprove h
  refine ⟨he, ?_, ?_⟩
  · intro a ca hmem
    rcases htr with h2 | h2 <;> rw [h2] at hmem <;> simp at hmem
  · intro t hmem
    rcases htr with h2 | h2 <;> rw [h2] at hmem <;> simp_all

/-- C3 witness: at stBadOracle the borrow of 5 with 10 collateral fails, no
borrowAsset transaction appears, and everything submitted is the approval. -/
theorem borrow_badData_blocks_borrow_witness :
    stBadOracle.oracle.isBadData = true ∧
    ((∃ e, (borrow stBadOracle 5 10 true).1 = Except.error e) ∧
    (∀ a ca, Tx.borrowAsset a ca ∉ (borrow stBadOracle 5 10 true).2) ∧
    ∀ t, t ∈ (borrow stBadOracle 5 10 true).2 → t = Tx.approve 10) :=
  ⟨rfl, borrow_badData_blocks_borrow stBadOracle 5 10 true rfl⟩

/-- C3 counterexample: at stBadOracle, with insufficient collateral allowance
and autoApprove, the flow submits the approval transaction — a committed
mutation — before discovering isBadData and failing. -/
theorem borrow_badData_approval_cex :
    stBadOracle.oracle.isBadData = true ∧
    (borrow stBadOracle 5 10 true).2 = [Tx.approve 10] ∧
    (borrow stBadOracle 5 10 true).1 = Except.error SdkError.oracleBadData :=
  ⟨rfl, rfl, rfl⟩

/-- C4 (amended): the oracle validation before a borrow raises the bad-data
error only when isBadData is true; a zero price is not rejected as invalid
oracle data, and priceHigh is never read by the flow at all. -/
theorem borrow_oracle_error_iff_badData (st : ChainState) (amount collateralAmount : Int)
    (autoApprove : Bool) :
    ((borrow st amount collateralAmount autoApprove).1 = Except.error SdkError.oracleBadData →
      st.oracle.isBadData = true) ∧
    ∀ p, borrow (setPriceHigh st p) amount collateralAmount autoApprove =
      borrow st amount collateralAmount autoApprove := by
  constructor
  · intro h
    unfold borrow borrowRiskPhase at h
    split_ifs at h with h1 h2 h3 h4 h5 h6 <;> simp_all
  · exact fun p => rfl

/-- C4 witness: the bad-data implication instantiated at stBadOracle, and
priceHigh-irrelevance instantiated at stZeroHigh with priceHigh replaced by 7. -/
theorem borrow_oracle_error_iff_badData_witness :
    stBadOracle.oracle.isBadData = true ∧
    borrow (setPriceHigh stZeroHigh 7) (10 ^ 18) (2 * 10 ^ 18) true =
      borrow stZeroHigh (10 ^ 18) (2 * 10 ^ 18) true :=
  ⟨(borrow_oracle_error_iff_badData stBadOracle 5 10 true).1 rfl,
    (borrow_oracle_error_iff_badData stZeroHigh (10 ^ 18) (2 * 10 ^ 18) true).2 7⟩

/-- C4 counterexample: at stZeroHigh the oracle returns priceHigh = 0 with
good data, yet the borrow proceeds all the way to submitting borrowAsset
instead of failing with an oracle-data-invalid error. -/
theorem borrow_zero_price_cex :
    stZeroHigh.oracle.priceHigh = 0 ∧
    stZeroHigh.oracle.isBadData = false ∧
    (borrow stZeroHigh (10 ^ 18) (2 * 10 ^ 18) true).1 = Except.ok () ∧
    (borrow stZeroHigh (10 ^ 18) (2 * 10 ^ 18) true).2 =
      [Tx.borrowAsset (10 ^ 18) (2 * 10 ^ 18)] :=
  ⟨rfl, rfl, rfl, rfl⟩

/-- C5 (confirmed): a repay request for more shares than the user's borrow
shares submits no transaction at all; it fails with the no-debt error when the
user's borrow shares are zero and with the cannot-repay-more-than-debt error
otherwise. -/
theorem repay_over_debt_rejected (st : ChainState) (shares : Int) (autoApprove : Bool)
    (h0 : 0 ≤ st.userBorrowShares) (h : st.userBorrowShares < shares) :
    (repay st shares true autoApprove).2 = [] ∧
    (st.userBorrowShares = 0 →
      (repay st shares true autoApprove).1 = Except.error SdkError.noDebt) ∧
    (st.userBorrowShares ≠ 0 →
      (repay st shares true autoApprove).1 = Except.error SdkError.repayExceedsDebt) := by
  refine ⟨?_, ?_, ?_⟩
  · unfold repay
    split_ifs <;> first | rfl | omega | simp_all
  · intro hz
    unfold repay
    split_ifs <;> first | rfl | omega | simp_all
  · intro hz
    unfold repay
    split_ifs <;> first | rfl | omega | simp_all

/-- C5 witness: repaying 60 shares against a 50-share debt in stDebt submits
nothing and fails with the over-repayment error. -/
theorem repay_over_debt_rejected_witness :
    (repay stDebt 60 true true).2 = [] ∧
    (repay stDebt 60 true true).1 = Except.error SdkError.repayExceedsDebt :=
  ⟨(repay_over_debt_rejected stDebt 60 true (by decide) (by decide)).1,
    (repay_over_debt_rejected stDebt 60 true (by decide) (by decide)).2.2 (by decide)⟩

/-- C6 (amended): borrow, repay (with a valid address), withdraw,
addCollateral and removeCollateral all reject a non-positive amount with the
invalid-input error before submitting any transaction; supply performs no
positivity validation and proceeds to submit the deposit transaction even for
a non-positive amount. -/
theorem nonpositive_amount_validation (st : ChainState) (amount c : Int)
    (uv autoApprove : Bool) (h : amount ≤ 0) :
    borrow st amount c autoApprove = (Except.error SdkError.nonPositiveAmount, []) ∧
    repay st amount true autoApprove = (Except.error SdkError.nonPositiveAmount, []) ∧
    withdraw st amount autoApprove = (Except.error SdkError.nonPositiveAmount, []) ∧
    addCollateral st amount uv autoApprove = (Except.error SdkError.nonPositiveAmount, []) ∧
    removeCollateral st amount autoApprove = (Except.error SdkError.nonPositiveAmount, []) ∧
    (0 ≤ st.allowanceAsset →
      supply st amount autoApprove = (Except.ok (), [Tx.deposit amount])) := by
  refine ⟨?_, ?_, ?_, ?_, ?_, ?_⟩
  · unfold borrow
    rw [if_pos h]
  · unfold repay
    split_ifs <;> first | rfl | omega | simp_all
  · unfold withdraw
    rw [if_pos h]
  · unfold addCollateral
    rw [if_pos h]
  · unfold removeCollateral
    rw [if_pos h]
  · intro hall
    unfold supply
    rw [if_neg (by omega)]

/-- C6 witness: the five validations and the supply behaviour at amount 0. -/
theorem nonpositive_amount_validation_witness :
    (0 : Int) ≤ 0 ∧
    (borrow stEmpty 0 5 true = (Except.error SdkError.nonPositiveAmount, []) ∧
    repay stEmpty 0 true true = (Except.error SdkError.nonPositiveAmount, []) ∧
    withdraw stEmpty 0 true = (Except.error SdkError.nonPositiveAmount, []) ∧
    addCollateral stEmpty 0 true true = (Except.error SdkError.nonPositiveAmount, []) ∧
    removeCollateral stEmpty 0 true = (Except.error SdkError.nonPositiveAmount, []) ∧
    (0 ≤ stEmpty.allowanceAsset →
      supply stEmpty 0 true = (Except.ok (), [Tx.deposit 0]))) :=
  ⟨by decide, nonpositive_amount_validation stEmpty 0 5 true true (by decide)⟩

/-- C6 counterexample: supply of amount 0 is not rejected; it succeeds locally
and submits the deposit transaction, so supply has no positive-amount
validation. -/
theorem supply_no_amount_validation_cex :
    (supply stEmpty 0 true).1 = Except.ok () ∧
    (supply stEmpty 0 true).2 = [Tx.deposit 0] :=
  ⟨rfl, rfl⟩

/-- C7 (amended): every approval submitted by the isolated SDK flows (supply,
repay, addCollateral, and the collateral approval inside borrow) is for
exactly the amount the operation requires; the core module approveToken
instead approves the fixed amount parseEther("1000000000") whenever the
current allowance is insufficient. -/
theorem approval_amounts (st : ChainState) (x y allowance req : Int) (autoApprove : Bool) :
    (∀ a, Tx.approve a ∈ (supply st x autoApprove).2 → a = x) ∧
    (∀ a, Tx.approve a ∈ (repay st x true autoApprove).2 → a = debtAmount st.totalBorrow x) ∧
    (∀ a, Tx.approve a ∈ (addCollateral st x true autoApprove).2 → a = x) ∧
    (∀ a, Tx.approve a ∈ (borrow st x y autoApprove).2 → a = y) ∧
    (∀ a, Tx.approve a ∈ (coreApproveToken allowance req).2 → a = coreApprovalAmount) := by
  refine ⟨?_, ?_, ?_, ?_, ?_⟩
  · intro a hmem
    unfold supply at hmem
    split_ifs at hmem <;> simp_all
  · intro a hmem
    unfold repay at hmem
    simp only [] at hmem
    split_ifs at hmem <;> simp_all
  · intro a hmem
    unfold addCollateral at hmem
    split_ifs at hmem <;> simp_all
  · intro a hmem
    unfold borrow borrowRiskPhase at hmem
    split_ifs at hmem <;> simp_all
  · intro a hmem
    unfold coreApproveToken at hmem
    split_ifs at hmem <;> simp_all

/-- C7 witness: supply of 5 with zero allowance approves exactly 5. -/
theorem approval_amounts_witness :
    Tx.approve 5 ∈ (supply stEmpty 5 true).2 ∧ (5 : Int) = 5 :=
  ⟨by decide, (approval_amounts stEmpty 5 0 0 0 true).1 5 (by decide)⟩

/-- C7 counterexample: the core approveToken, asked to cover an amount of 5
with zero allowance, approves the fixed 10^9 * 10^18 instead of 5. -/
theorem coreApproveToken_not_exact_cex :
    (coreApproveToken 0 5).2 = [Tx.approve coreApprovalAmount] ∧
    coreApprovalAmount ≠ 5 ∧ coreApprovalAmount = 1000000000 * 10 ^ 18 :=
  ⟨rfl, by decide, by decide⟩

/-- C8 (confirmed): under the protocol accounting invariant that a user's
borrow shares never exceed the pair's total borrow shares, the guard that the
user's borrow shares are non-zero forces the divisor totalBorrow.shares of the
repay conversion to be non-zero, and the conversion of zero shares is zero. -/
theorem repay_divisor_nonzero (st : ChainState)
    (h0 : 0 ≤ st.userBorrowShares) (hinv : st.userBorrowShares ≤ st.totalBorrow.shares) :
    (st.userBorrowShares ≠ 0 → st.totalBorrow.shares ≠ 0) ∧
    ∀ tb : TotalBorrow, debtAmount tb 0 = 0 := by
  refine ⟨by omega, ?_⟩
  intro tb
  simp [debtAmount, Int.zero_tdiv]

/-- C8 witness: the invariant and conclusion at stDebt. -/
theorem repay_divisor_nonzero_witness :
    (0 : Int) ≤ stDebt.userBorrowShares ∧
    stDebt.userBorrowShares ≤ stDebt.totalBorrow.shares ∧
    ((stDebt.userBorrowShares ≠ 0 → stDebt.totalBorrow.shares ≠ 0) ∧
      ∀ tb : TotalBorrow, debtAmount tb 0 = 0) :=
  ⟨by decide, by decide, repay_divisor_nonzero stDebt (by decide) (by decide)⟩

/-- C9 (confirmed): readUserPosition reports liquidationPrice as
userBorrowShares * lowExchangeRate / userCollateralBalance when both the
borrow shares and the collateral balance are non-zero, and exactly zero,
without dividing, when either is zero. -/
theorem readUserPosition_liquidation (st : ChainState) (h0 : 0 ≤ st.userBorrowShares) :
    (st.userBorrowShares ≠ 0 → st.userCollateralBalance ≠ 0 →
      (readUserPosition st).liquidationPrice =
        Int.tdiv (st.userBorrowShares * st.lowExchangeRate) st.userCollateralBalance) ∧
    ((st.userBorrowShares = 0 ∨ st.userCollateralBalance = 0) →
      (readUserPosition st).liquidationPrice = 0) := by
  constructor
  · intro h1 h2
    show (if 0 < st.userBorrowShares ∧ st.userCollateralBalance ≠ 0 then
        Int.tdiv (st.userBorrowShares * st.lowExchangeRate) st.userCollateralBalance
      else 0) = Int.tdiv (st.userBorrowShares * st.lowExchangeRate) st.userCollateralBalance
    exact if_pos ⟨by omega, h2⟩
  · intro hd
    show (if 0 < st.userBorrowShares ∧ st.userCollateralBalance ≠ 0 then
        Int.tdiv (st.userBorrowShares * st.lowExchangeRate) st.userCollateralBalance
      else 0) = 0
    rcases hd with h1 | h1
    · exact if_neg (by rintro ⟨hc, -⟩; omega)
    · exact if_neg (fun hc => hc.2 h1)

/-- C9 witness: the position in stDebt has 50 borrow shares and 100 collateral
units, so its liquidation price is the quotient 50 * 10^18 / 100. -/
theorem readUserPosition_liquidation_witness :
    (readUserPosition stDebt).liquidationPrice =
      Int.tdiv (stDebt.userBorrowShares * stDebt.lowExchangeRate) stDebt.userCollateralBalance :=
  (readUserPosition_liquidation stDebt (by decide)).1 (by decide) (by decide)

/-- C10 (confirmed): the autoApprove parameter of withdraw and removeCollateral
is never read; two invocations differing only in autoApprove give identical
results and identical submitted transactions. -/
theorem withdraw_removeCollateral_autoApprove_unused (st : ChainState) (x : Int) (a b : Bool) :
    withdraw st x a = withdraw st x b ∧ removeCollateral st x a = removeCollateral st x b :=
  ⟨rfl, rfl⟩
